import Mathlib

/-!
Verification of the DeFiChain auction bidder server against its
natural-language specification.

The repository holds two variants of the same Express server:

* variant 1: the file `src/unnamed/part_000`;
* variant 2: a second full copy of the server embedded in `src/.eslintrc.js`
  after the eslint configuration (lines 23-174 of that file).

Both variants share `getPriceInDUSD` and `getRewardPrice` verbatim; they
differ in `getStartingBid` (variant 2 fetches the vault itself through
`getHighestBidSoFar`, which swallows lookup errors), in the margin filter
(variant 1 additionally requires `diff > 1` and `startingBid < 8000`), and
in post-processing (variant 2 sorts with `sortyByMargin` and then reverses;
variant 1 does not sort, but adds a `maxPrice` field via `getMaxPrice`).

Monetary values are `bignumber.js` values.  They are embedded as `BigNum`:
an exact rational together with the three non-finite values `Infinity`,
`-Infinity` and `NaN` that bignumber.js produces (division by zero yields a
signed infinity, invalid operands yield NaN, and every comparison involving
NaN is false).  Asset strings of the form `"<amount>@<symbol>"` are embedded
in parsed form (`AssetString`), since the code always splits them at `'@'`
immediately and the numeric component is only ever used as a BigNumber.

The RPC client is embedded as an explicit environment `Env` of deterministic
lookup functions; a rejected RPC promise is an `Except.error` carrying a
`LookupError`, where `poolNotFound` stands for an error whose message
contains `'Pool not found'`.  A thrown JavaScript `TypeError` (method call
on `null`) is `JsError.typeError`.  The final response-rendering `map`
(fixed-precision display formatting) is modelled as the identity on records,
except that in variant 1 `maxPrice.toString()` throws when `maxPrice` is
`null`; display strings themselves are not modelled, and the rendering step
preserves the number and order of records.
-/

deriving instance DecidableEq for Except

/-- A bignumber.js value: an exact rational, or one of the non-finite
values `Infinity`, `-Infinity`, `NaN`. -/
inductive BigNum where
  | num (q : Rat)
  | posInf
  | negInf
  | nan
deriving DecidableEq, Repr

namespace BigNum

/-- bignumber.js `plus`: IEEE-style addition (`Infinity + -Infinity = NaN`,
NaN absorbs everything). -/
def plus : BigNum → BigNum → BigNum
  | nan, _ => nan
  | _, nan => nan
  | num a, num b => num (a + b)
  | num _, posInf => posInf
  | num _, negInf => negInf
  | posInf, num _ => posInf
  | negInf, num _ => negInf
  | posInf, posInf => posInf
  | negInf, negInf => negInf
  | posInf, negInf => nan
  | negInf, posInf => nan

/-- bignumber.js `minus`: IEEE-style subtraction. -/
def minus : BigNum → BigNum → BigNum
  | nan, _ => nan
  | _, nan => nan
  | num a, num b => num (a - b)
  | num _, posInf => negInf
  | num _, negInf => posInf
  | posInf, num _ => posInf
  | negInf, num _ => negInf
  | posInf, posInf => nan
  | negInf, negInf => nan
  | posInf, negInf => posInf
  | negInf, posInf => negInf

/-- bignumber.js `multipliedBy`: IEEE-style multiplication
(`0 × Infinity = NaN`). -/
def multipliedBy : BigNum → BigNum → BigNum
  | nan, _ => nan
  | _, nan => nan
  | num a, num b => num (a * b)
  | num a, posInf => if 0 < a then posInf else if a < 0 then negInf else nan
  | num a, negInf => if 0 < a then negInf else if a < 0 then posInf else nan
  | posInf, num b => if 0 < b then posInf else if b < 0 then negInf else nan
  | negInf, num b => if 0 < b then negInf else if b < 0 then posInf else nan
  | posInf, posInf => posInf
  | negInf, negInf => posInf
  | posInf, negInf => negInf
  | negInf, posInf => negInf

/-- bignumber.js `dividedBy`: division by zero yields a signed infinity
(`0/0 = NaN`), division by an infinity yields zero, `Infinity/Infinity = NaN`. -/
def dividedBy : BigNum → BigNum → BigNum
  | nan, _ => nan
  | _, nan => nan
  | num a, num b =>
      if b = 0 then (if 0 < a then posInf else if a < 0 then negInf else nan)
      else num (a / b)
  | num _, posInf => num 0
  | num _, negInf => num 0
  | posInf, num b => if b < 0 then negInf else posInf
  | negInf, num b => if b < 0 then posInf else negInf
  | posInf, posInf => nan
  | posInf, negInf => nan
  | negInf, posInf => nan
  | negInf, negInf => nan

/-- bignumber.js `isGreaterThan`; every comparison involving NaN is false. -/
def isGreaterThan : BigNum → BigNum → Bool
  | nan, _ => false
  | _, nan => false
  | num a, num b => decide (b < a)
  | num _, posInf => false
  | num _, negInf => true
  | posInf, num _ => true
  | negInf, num _ => false
  | posInf, posInf => false
  | posInf, negInf => true
  | negInf, posInf => false
  | negInf, negInf => false

/-- bignumber.js `isGreaterThanOrEqualTo`; false whenever NaN is involved. -/
def isGreaterThanOrEqualTo : BigNum → BigNum → Bool
  | nan, _ => false
  | _, nan => false
  | num a, num b => decide (b ≤ a)
  | num _, posInf => false
  | num _, negInf => true
  | posInf, num _ => true
  | negInf, num _ => false
  | posInf, posInf => true
  | posInf, negInf => true
  | negInf, posInf => false
  | negInf, negInf => true

/-- bignumber.js `isLessThan`; false whenever NaN is involved. -/
def isLessThan : BigNum → BigNum → Bool
  | nan, _ => false
  | _, nan => false
  | num a, num b => decide (a < b)
  | num _, posInf => true
  | num _, negInf => false
  | posInf, num _ => false
  | negInf, num _ => true
  | posInf, posInf => false
  | posInf, negInf => false
  | negInf, posInf => true
  | negInf, negInf => false

end BigNum

/-- Parsed form of an asset string `"<amount>@<symbol>"`: the code always
splits such strings at `'@'` into the numeric amount (used as a BigNumber)
and the symbol. -/
structure AssetString where
  amt : Rat
  sym : String
deriving DecidableEq, Repr

/-- The `highestBid` object of an auction batch; only its `amount` field
(an asset string) is read by the code (the `owner` field is never used). -/
structure HighestBid where
  amount : AssetString
deriving DecidableEq, Repr

/-- One auction batch as returned inside a vault or the auction list:
batch index, the loan owed, the collateral reward list, and the highest
bid placed so far, if any. -/
structure AuctionBatch where
  index : Nat
  loan : AssetString
  collaterals : List AssetString
  highestBid : Option HighestBid
deriving DecidableEq, Repr

/-- A vault as returned by `client.loan.getVault`: its batches and its
liquidation block height. -/
structure Vault where
  batches : List AuctionBatch
  liquidationHeight : Nat
deriving DecidableEq, Repr

/-- One element of `client.loan.listAuctions`: a vault id with its batches. -/
structure AuctionVault where
  vaultId : String
  batches : List AuctionBatch
deriving DecidableEq, Repr

/-- One element of the flattened auction list produced by
`getAvailableAuctions`: a batch spread together with its `vaultId`
(`{ ...batch, vaultId }`). -/
structure Auction where
  vaultId : String
  index : Nat
  loan : AssetString
  collaterals : List AssetString
  highestBid : Option HighestBid
deriving DecidableEq, Repr

/-- A pool pair as returned by `client.poolpair.getPoolPair`: the two
directional reserve ratios read by the code (the first entry's
`'reserveA/reserveB'` and `'reserveB/reserveA'` fields). -/
structure PoolPair where
  reserveAoverB : Rat
  reserveBoverA : Rat
deriving DecidableEq, Repr

/-- A rejected RPC promise: either an error whose message contains
`'Pool not found'`, or any other upstream error. -/
inductive LookupError where
  | poolNotFound
  | other
deriving DecidableEq, Repr

/-- An exception escaping a piece of server code: a rejected RPC lookup,
or a JavaScript `TypeError` from calling a method on `null`. -/
inductive JsError where
  | lookup (e : LookupError)
  | typeError
deriving DecidableEq, Repr

/-- The deterministic external data source: `client.loan.listAuctions`,
`client.loan.getVault` and `client.poolpair.getPoolPair`. -/
structure Env where
  listAuctions : Nat → Except LookupError (List AuctionVault)
  getVault : String → Except LookupError Vault
  getPoolPair : String → Except LookupError PoolPair

/-- `getAvailableAuctions` (identical in both variants): list auctions and
flatten the batches across vaults, tagging each batch with its `vaultId`. -/
def getAvailableAuctions (env : Env) (limit : Nat) :
    Except LookupError (List Auction) :=
  match env.listAuctions limit with
  | .error e => .error e
  | .ok vaults =>
      .ok (vaults.foldl
        (fun acc v =>
          acc ++ v.batches.map
            (fun b => ⟨v.vaultId, b.index, b.loan, b.collaterals, b.highestBid⟩))
        [])

/-- `getPriceInDUSD` (identical in both variants).  For symbol `'DFI'` it
uses pool `'DUSD-DFI'` with ratio `reserveA/reserveB`; otherwise pool
`'<symbol>-DUSD'` with ratio `reserveB/reserveA`.  If the direct lookup
rejects with a "Pool not found" error it falls back to the two-hop path
`'<symbol>-DFI'` then `'DUSD-DFI'`; a rejection inside that fallback is
not caught and escapes.  Any other direct-lookup error is logged and the
function returns `null` (here `Option.none`). -/
def getPriceInDUSD (env : Env) (amount : BigNum) (symbol : String) :
    Except JsError (Option BigNum) :=
  let direct : Except LookupError BigNum :=
    if symbol = "DFI" then
      match env.getPoolPair ("DUSD-DFI") with
      | .ok poolPair => .ok ((BigNum.num poolPair.reserveAoverB).multipliedBy amount)
      | .error e => .error e
    else
      match env.getPoolPair (symbol ++ "-DUSD") with
      | .ok poolPair => .ok ((BigNum.num poolPair.reserveBoverA).multipliedBy amount)
      | .error e => .error e
  match direct with
  | .ok price => .ok (some price)
  | .error LookupError.poolNotFound =>
      match env.getPoolPair (symbol ++ "-DFI"), env.getPoolPair ("DUSD-DFI") with
      | .ok firstPair, .ok secondPair =>
          .ok (some (((BigNum.num firstPair.reserveBoverA).multipliedBy amount).multipliedBy
            (BigNum.num secondPair.reserveAoverB)))
      | .error e, _ => .error (JsError.lookup e)
      | _, .error e => .error (JsError.lookup e)
  | .error LookupError.other => .ok none

/-- `getMaxPrice` (variant 1 only): pool `'<symbol>-DUSD>'` ratio
`reserveA/reserveB` times the amount times `0.99`; any error at all is
caught and `null` is returned. -/
def getMaxPrice (env : Env) (amount : BigNum) (symbol : String) : Option BigNum :=
  match env.getPoolPair (symbol ++ "-DUSD") with
  | .ok poolPair =>
      some (((BigNum.num poolPair.reserveAoverB).multipliedBy amount).multipliedBy
        (BigNum.num (99/100)))
  | .error _ => none

/-- The coercion bignumber.js applies to a `null` operand: `BigNumber(null)`
is NaN.  Used when `getRewardPrice` sums a price list containing `null`. -/
def bigOfNullable : Option BigNum → BigNum
  | some p => p
  | none => BigNum.nan

/-- The per-collateral price lookups of `getRewardPrice` (`Promise.all` over
`getPriceInDUSD` calls): succeeds with the list of results (each possibly
`null`) or rejects with the first rejection. -/
def mapPrices (env : Env) : List AssetString → Except JsError (List (Option BigNum))
  | [] => .ok []
  | c :: rest =>
      match getPriceInDUSD env (BigNum.num c.amt) c.sym with
      | .error e => .error e
      | .ok p =>
          match mapPrices env rest with
          | .error e => .error e
          | .ok ps => .ok (p :: ps)

/-- The summation step of `getRewardPrice`:
`prices.reduce((sum, price) => sum.plus(price), new BigNumber(0))`. -/
def sumPrices (prices : List (Option BigNum)) : BigNum :=
  prices.foldl (fun sum price => sum.plus (bigOfNullable price)) (BigNum.num 0)

/-- `getRewardPrice` (identical in both variants): price every collateral
concurrently, then reduce with `plus` starting from zero. -/
def getRewardPrice (env : Env) (collaterals : List AssetString) :
    Except JsError BigNum :=
  match mapPrices env collaterals with
  | .error e => .error e
  | .ok prices => .ok (sumPrices prices)

/-- The margin computation shared by both request handlers:
`diff.dividedBy(startingBid).multipliedBy(100)`. -/
def jsMargin (diff startingBid : BigNum) : BigNum :=
  (diff.dividedBy startingBid).multipliedBy (BigNum.num 100)

/-- An HTTP response: a JSON list of records, or the generic 500
`'Internal Server Error'` produced by the handler's catch-all. -/
inductive Response (α : Type) where
  | ok (records : List α)
  | serverError500
deriving DecidableEq, Repr

namespace V1

/-!
Variant 1: the server in `src/unnamed/part_000`.
-/

/-- The valuation record pushed by the variant-1 handler
(`src/unnamed/part_000` lines 126-137), in push order.  `minBid` is the
amount component of the loan string. -/
structure ValRecordA where
  url : String
  minBidDusd : BigNum
  reward : BigNum
  diff : BigNum
  margin : BigNum
  maxBlockNumber : Nat
  bidToken : String
  maxPrice : Option BigNum
  minBid : Rat
deriving DecidableEq, Repr

/-- `getStartingBid` of `src/unnamed/part_000` (lines 84-95): read the
batch's highest bid from the vault via optional chaining
(`vault.batches?.[batchIndex]?.highestBid`); without one, price the loan
amount and multiply by `'1.05'`; with one, price the amount component of
the bid string (same symbol) and multiply by `'1.01'`.  A `null` price
(unexpected lookup failure) makes the `multipliedBy` call throw a
`TypeError`. -/
def getStartingBid (env : Env) (vault : Vault) (batchIndex : Nat)
    (amount : Rat) (symbol : String) : Except JsError BigNum :=
  match (vault.batches[batchIndex]?).bind AuctionBatch.highestBid with
  | none =>
      match getPriceInDUSD env (BigNum.num amount) symbol with
      | .error e => .error e
      | .ok none => .error JsError.typeError
      | .ok (some loanNum) => .ok (loanNum.multipliedBy (BigNum.num (105/100)))
  | some highestBidSoFar =>
      match getPriceInDUSD env (BigNum.num highestBidSoFar.amount.amt) symbol with
      | .error e => .error e
      | .ok none => .error JsError.typeError
      | .ok (some highestBidSoFarNum) =>
          .ok (highestBidSoFarNum.multipliedBy (BigNum.num (101/100)))

/-- The body of the variant-1 request-handler loop
(`src/unnamed/part_000` lines 113-138), processed sequentially in list
order: fetch the vault, estimate the starting bid, price the reward,
compute `diff` and `margin`, fetch `maxPrice`, and keep the record only if
`margin ≥ minMarginPercentage && diff > 1 && startingBid < 8000`.  Any
exception aborts the whole loop. -/
def processAuctions (env : Env) (minMargin : BigNum) :
    List Auction → Except JsError (List ValRecordA)
  | [] => .ok []
  | auction :: rest =>
      match env.getVault auction.vaultId with
      | .error e => .error (JsError.lookup e)
      | .ok vault =>
          match getStartingBid env vault auction.index auction.loan.amt auction.loan.sym with
          | .error e => .error e
          | .ok startingBid =>
              match getRewardPrice env auction.collaterals with
              | .error e => .error e
              | .ok reward =>
                  match processAuctions env minMargin rest with
                  | .error e => .error e
                  | .ok rest' =>
                      let url := "https://defiscan.live/vaults/" ++ auction.vaultId
                        ++ "/auctions/" ++ toString auction.index
                      let diff := reward.minus startingBid
                      let margin := jsMargin diff startingBid
                      let maxPrice := getMaxPrice env reward auction.loan.sym
                      if margin.isGreaterThanOrEqualTo minMargin
                          && diff.isGreaterThan (BigNum.num 1)
                          && startingBid.isLessThan (BigNum.num 8000) then
                        .ok (⟨url, startingBid, reward, diff, margin,
                          vault.liquidationHeight, auction.loan.sym, maxPrice,
                          auction.loan.amt⟩ :: rest')
                      else
                        .ok rest'

/-- The final `result.map` of the variant-1 handler (lines 139-159): each
numeric field is rendered with `toString`, which throws a `TypeError` when
`maxPrice` is `null`; otherwise it is display formatting only and the
record is kept as is. -/
def renderAll : List ValRecordA → Except JsError (List ValRecordA)
  | [] => .ok []
  | r :: rest =>
      match r.maxPrice with
      | none => .error JsError.typeError
      | some _ =>
          match renderAll rest with
          | .error e => .error e
          | .ok rs => .ok (r :: rs)

/-- The variant-1 route handler `app.get('/get-auction-list/:limit')`
(`src/unnamed/part_000` lines 106-166): list and flatten the auctions,
process them sequentially, render, and respond; any exception anywhere is
caught and answered with a generic 500. -/
def handler (env : Env) (limit : Nat) (minMargin : BigNum) : Response ValRecordA :=
  match getAvailableAuctions env limit with
  | .error _ => Response.serverError500
  | .ok auctions =>
      match processAuctions env minMargin auctions with
      | .error _ => Response.serverError500
      | .ok records =>
          match renderAll records with
          | .error _ => Response.serverError500
          | .ok rs => Response.ok rs

end V1

namespace V2

/-!
Variant 2: the server embedded in `src/.eslintrc.js` (lines 23-174).
-/

/-- The valuation record pushed by the variant-2 handler
(`src/.eslintrc.js` line 151), in push order. -/
structure ValRecord where
  url : String
  minBid : BigNum
  reward : BigNum
  diff : BigNum
  margin : BigNum
deriving DecidableEq, Repr

/-- `getHighestBidSoFar` (`src/.eslintrc.js` lines 95-103): fetch the vault
and read `vault.batches?.[batchIndex]?.highestBid`; ANY lookup error is
caught, logged, and turned into `null`. -/
def getHighestBidSoFar (env : Env) (vaultId : String) (batchIndex : Nat) :
    Option HighestBid :=
  match env.getVault vaultId with
  | .error _ => none
  | .ok vault => (vault.batches[batchIndex]?).bind AuctionBatch.highestBid

/-- `getStartingBid` of `src/.eslintrc.js` (lines 105-117): like variant 1
but it fetches the highest bid itself through `getHighestBidSoFar`. -/
def getStartingBid (env : Env) (auction : Auction) : Except JsError BigNum :=
  match getHighestBidSoFar env auction.vaultId auction.index with
  | none =>
      match getPriceInDUSD env (BigNum.num auction.loan.amt) auction.loan.sym with
      | .error e => .error e
      | .ok none => .error JsError.typeError
      | .ok (some loanNum) => .ok (loanNum.multipliedBy (BigNum.num (105/100)))
  | some highestBidSoFar =>
      match getPriceInDUSD env (BigNum.num highestBidSoFar.amount.amt) auction.loan.sym with
      | .error e => .error e
      | .ok none => .error JsError.typeError
      | .ok (some highestBidSoFarNum) =>
          .ok (highestBidSoFarNum.multipliedBy (BigNum.num (101/100)))

/-- `sortyByMargin` (`src/.eslintrc.js` lines 128-132): the comparator
passed to `Array.prototype.sort`; `-1` when the first margin is greater,
`1` when the second is, `0` otherwise (also for NaN). -/
def sortyByMargin (first second : ValRecord) : Int :=
  if first.margin.isGreaterThan second.margin then -1
  else if second.margin.isGreaterThan first.margin then 1
  else 0

/-- The body of the variant-2 handler loop (`src/.eslintrc.js` lines
141-153): estimate the bid, price the reward, compute `diff` and `margin`,
and keep the record iff `margin ≥ minMarginPercentage`. -/
def processAuctions (env : Env) (minMargin : BigNum) :
    List Auction → Except JsError (List ValRecord)
  | [] => .ok []
  | auction :: rest =>
      match getStartingBid env auction with
      | .error e => .error e
      | .ok startingBid =>
          match getRewardPrice env auction.collaterals with
          | .error e => .error e
          | .ok reward =>
              match processAuctions env minMargin rest with
              | .error e => .error e
              | .ok rest' =>
                  let url := "https://defiscan.live/vaults/" ++ auction.vaultId
                    ++ "/auctions/" ++ toString auction.index
                  let diff := reward.minus startingBid
                  let margin := jsMargin diff startingBid
                  if margin.isGreaterThanOrEqualTo minMargin then
                    .ok (⟨url, startingBid, reward, diff, margin⟩ :: rest')
                  else
                    .ok rest'

end V2

/-- The order `Array.prototype.sort` establishes for a comparator `cmp`:
element `a` may precede element `b` when `cmp a b ≤ 0`. -/
def jsSortLe {α : Type} (cmp : α → α → Int) (a b : α) : Bool :=
  decide (cmp a b ≤ 0)

/-- Stable insertion of `a` into `l` at the first position allowed by `le`;
building block of the stable sort guaranteed by `Array.prototype.sort`. -/
def jsOrderedInsert {α : Type} (le : α → α → Bool) (a : α) : List α → List α
  | [] => [a]
  | b :: l => if le a b then a :: b :: l else b :: jsOrderedInsert le a l

/-- The stable sort performed by `Array.prototype.sort` (ES2019+ requires
stability; for a consistent comparator the result is the unique stable
sorted permutation, which insertion sort computes). -/
def jsStableSort {α : Type} (le : α → α → Bool) : List α → List α
  | [] => []
  | a :: l => jsOrderedInsert le a (jsStableSort le l)

namespace V2

/-- The variant-2 route handler (`src/.eslintrc.js` lines 134-169):
list and flatten the auctions, process them sequentially, then
`result.sort(sortyByMargin)` followed by `result.reverse()`; the final
display-string `map` (`toPrecision`, lines 156-162) never throws and is
modelled as the identity.  Any exception is caught and answered with a
generic 500. -/
def handler (env : Env) (limit : Nat) (minMargin : BigNum) : Response ValRecord :=
  match getAvailableAuctions env limit with
  | .error _ => Response.serverError500
  | .ok auctions =>
      match processAuctions env minMargin auctions with
      | .error _ => Response.serverError500
      | .ok records =>
          Response.ok ((jsStableSort (jsSortLe sortyByMargin) records).reverse)

end V2

/-!
Concrete environments and records used by the claim theorems, their
witnesses and counterexamples.
-/

/-- Environment with two listed batches: the first batch's loan symbol
`"TSLA"` hits an unexpected (non-"Pool not found") pool lookup error, the
second batch (`"v2"`, loan `100@DFI`, collateral `200@DFI`) is healthy. -/
def envC1 : Env :=
  ⟨fun _ => .ok [⟨"v1", [⟨0, ⟨100, "TSLA"⟩, [], none⟩]⟩,
                 ⟨"v2", [⟨0, ⟨100, "DFI"⟩, [⟨200, "DFI"⟩], none⟩]⟩],
   fun vaultId =>
     if vaultId = "v1" then .ok ⟨[⟨0, ⟨100, "TSLA"⟩, [], none⟩], 1000⟩
     else if vaultId = "v2" then .ok ⟨[⟨0, ⟨100, "DFI"⟩, [⟨200, "DFI"⟩], none⟩], 2000⟩
     else .error .other,
   fun name =>
     if name = "DUSD-DFI" then .ok ⟨1, 1⟩
     else if name = "DFI-DUSD" then .ok ⟨1, 1⟩
     else .error .other⟩

/-- The healthy second batch of `envC1`, as a flattened auction. -/
def auctionY : Auction := ⟨"v2", 0, ⟨100, "DFI"⟩, [⟨200, "DFI"⟩], none⟩

/-- The valuation record the healthy batch of `envC1` produces on its own:
starting bid `105`, reward `200`, margin `1900/21 %`. -/
def recY : V1.ValRecordA :=
  ⟨"https://defiscan.live/vaults/v2/auctions/0", BigNum.num 105, BigNum.num 200,
   BigNum.num 95, BigNum.num (1900/21), 2000, "DFI", some (BigNum.num 198), 100⟩

/-- Environment with three healthy single-batch vaults whose valuations have
margins 5%, 20% and 12% (loans `100@DFI` at DFI price 1, so starting bid
`105`; rewards `110.25`, `126`, `117.6` in DFI). -/
def envC2 : Env :=
  ⟨fun _ => .ok [⟨"v1", [⟨0, ⟨100, "DFI"⟩, [⟨441/4, "DFI"⟩], none⟩]⟩,
                 ⟨"v2", [⟨0, ⟨100, "DFI"⟩, [⟨126, "DFI"⟩], none⟩]⟩,
                 ⟨"v3", [⟨0, ⟨100, "DFI"⟩, [⟨588/5, "DFI"⟩], none⟩]⟩],
   fun vaultId =>
     if vaultId = "v1" then .ok ⟨[⟨0, ⟨100, "DFI"⟩, [⟨441/4, "DFI"⟩], none⟩], 100⟩
     else if vaultId = "v2" then .ok ⟨[⟨0, ⟨100, "DFI"⟩, [⟨126, "DFI"⟩], none⟩], 200⟩
     else if vaultId = "v3" then .ok ⟨[⟨0, ⟨100, "DFI"⟩, [⟨588/5, "DFI"⟩], none⟩], 300⟩
     else .error .other,
   fun name => if name = "DUSD-DFI" then .ok ⟨1, 1⟩ else .error .other⟩

/-- The margin-5% record of `envC2` (vault `"v1"`). -/
def recC2m5 : V2.ValRecord :=
  ⟨"https://defiscan.live/vaults/v1/auctions/0", BigNum.num 105,
   BigNum.num (441/4), BigNum.num (21/4), BigNum.num 5⟩

/-- The margin-12% record of `envC2` (vault `"v3"`). -/
def recC2m12 : V2.ValRecord :=
  ⟨"https://defiscan.live/vaults/v3/auctions/0", BigNum.num 105,
   BigNum.num (588/5), BigNum.num (63/5), BigNum.num 12⟩

/-- The margin-20% record of `envC2` (vault `"v2"`). -/
def recC2m20 : V2.ValRecord :=
  ⟨"https://defiscan.live/vaults/v2/auctions/0", BigNum.num 105,
   BigNum.num 126, BigNum.num 21, BigNum.num 20⟩

/-- The response list the variant-2 handler returns on `envC2`:
ascending margins 5%, 12%, 20%. -/
def outC2 : List V2.ValRecord := [recC2m5, recC2m12, recC2m20]

/-- Environment with one healthy batch: loan `100@DFI` (starting bid `105`),
reward `105.5` — margin `10/21 % ≥ 0` but `diff = 0.5 ≤ 1`. -/
def envC3 : Env :=
  ⟨fun _ => .ok [⟨"v1", [⟨0, ⟨100, "DFI"⟩, [⟨211/2, "DFI"⟩], none⟩]⟩],
   fun vaultId =>
     if vaultId = "v1" then .ok ⟨[⟨0, ⟨100, "DFI"⟩, [⟨211/2, "DFI"⟩], none⟩], 500⟩
     else .error .other,
   fun name =>
     if name = "DUSD-DFI" then .ok ⟨1, 1⟩
     else if name = "DFI-DUSD" then .ok ⟨1, 1⟩
     else .error .other⟩

/-- The vault of `envC3`. -/
def vaultC3 : Vault := ⟨[⟨0, ⟨100, "DFI"⟩, [⟨211/2, "DFI"⟩], none⟩], 500⟩

/-- The single flattened auction of `envC3`. -/
def auctionC3 : Auction := ⟨"v1", 0, ⟨100, "DFI"⟩, [⟨211/2, "DFI"⟩], none⟩

/-- Environment whose vault fetch always fails, while the auction list and
the pools are healthy (loan `100@DFI`, collateral `200@DFI`). -/
def envC4 : Env :=
  ⟨fun _ => .ok [⟨"v1", [⟨0, ⟨100, "DFI"⟩, [⟨200, "DFI"⟩], none⟩]⟩],
   fun _ => .error .other,
   fun name => if name = "DUSD-DFI" then .ok ⟨1, 1⟩ else .error .other⟩

/-- The record the variant-2 handler still returns on `envC4` although every
vault fetch fails. -/
def recC4 : V2.ValRecord :=
  ⟨"https://defiscan.live/vaults/v1/auctions/0", BigNum.num 105, BigNum.num 200,
   BigNum.num 95, BigNum.num (1900/21)⟩

/-- Environment whose auction-list fetch itself fails. -/
def envC4b : Env :=
  ⟨fun _ => .error .other, fun _ => .error .other, fun _ => .error .other⟩

/-- Environment with one batch whose loan amount is `0@DFI` (starting bid 0)
and collateral `10@DFI` (reward 10): the margin divides by zero. -/
def envC9 : Env :=
  ⟨fun _ => .ok [⟨"v1", [⟨0, ⟨0, "DFI"⟩, [⟨10, "DFI"⟩], none⟩]⟩],
   fun vaultId =>
     if vaultId = "v1" then .ok ⟨[⟨0, ⟨0, "DFI"⟩, [⟨10, "DFI"⟩], none⟩], 700⟩
     else .error .other,
   fun name =>
     if name = "DUSD-DFI" then .ok ⟨1, 1⟩
     else if name = "DFI-DUSD" then .ok ⟨1, 1⟩
     else .error .other⟩

/-- The record `envC9` produces: margin is `Infinity` and the batch passes
the filter. -/
def recC9 : V1.ValRecordA :=
  ⟨"https://defiscan.live/vaults/v1/auctions/0", BigNum.num 0, BigNum.num 10,
   BigNum.num 10, BigNum.posInf, 700, "DFI", some (BigNum.num (99/10)), 0⟩

/-- Environment for the bid-estimator witnesses: DFI priced at 1 DUSD. -/
def envW5 : Env :=
  ⟨fun _ => .error .other, fun _ => .error .other,
   fun name => if name = "DUSD-DFI" then .ok ⟨1, 1⟩ else .error .other⟩

/-- A vault whose only batch has no highest bid. -/
def vaultW5nobid : Vault := ⟨[⟨0, ⟨100, "DFI"⟩, [], none⟩], 0⟩

/-- A vault whose only batch has highest bid `110@DFI`. -/
def vaultW5bid : Vault := ⟨[⟨0, ⟨100, "DFI"⟩, [], some ⟨⟨110, "DFI"⟩⟩⟩], 0⟩

/-- Environment for the two-hop witness: no direct `XYZ-DUSD` pool
(`Pool not found`), `XYZ-DFI` hop ratio 3, `DUSD-DFI` hop ratio 2. -/
def envW6 : Env :=
  ⟨fun _ => .error .other, fun _ => .error .other,
   fun name =>
     if name = "XYZ-DUSD" then .error .poolNotFound
     else if name = "XYZ-DFI" then .ok ⟨0, 3⟩
     else if name = "DUSD-DFI" then .ok ⟨2, 0⟩
     else .error .other⟩

/-- Environment for the reward-failure witness: DFI priced at 1, the
`XYZ-DUSD` lookup fails with an unexpected error. -/
def envW7 : Env :=
  ⟨fun _ => .error .other, fun _ => .error .other,
   fun name => if name = "DUSD-DFI" then .ok ⟨1, 1⟩ else .error .other⟩

/-- Collateral list for the reward-failure witness: a healthy `3@DFI` and a
failing `5@XYZ`. -/
def collW7 : List AssetString := [⟨3, "DFI"⟩, ⟨5, "XYZ"⟩]

/-- Environment for the reward-sum witness: DFI priced at 1, TSLA priced
at 2. -/
def envW8 : Env :=
  ⟨fun _ => .error .other, fun _ => .error .other,
   fun name =>
     if name = "DUSD-DFI" then .ok ⟨1, 1⟩
     else if name = "TSLA-DUSD" then .ok ⟨0, 2⟩
     else .error .other⟩

/-- Collaterals (`3@DFI`, `4@TSLA`) paired with their DUSD values (3, 8). -/
def pairsW8 : List (AssetString × Rat) := [(⟨3, "DFI"⟩, 3), (⟨4, "TSLA"⟩, 8)]

/-!
Claim theorems.
-/

/-- C5.  For every auction batch, if the batch has no prior highest bid in
the fetched vault then `startingBid = priceInDUSD(loanAmount, loanSymbol) × 1.05`,
and if it has one then `startingBid = priceInDUSD(highestBidAmount, loanSymbol) × 1.01`,
where `highestBidAmount` is the amount component of the highest-bid string
and the pricing symbol is the loan's symbol
(`getStartingBid`, `src/unnamed/part_000` lines 84-95). -/
theorem c5_starting_bid_formula (env : Env) (vault : Vault) (batchIndex : Nat)
    (amount : Rat) (symbol : String) :
    (∀ p : BigNum,
      (vault.batches[batchIndex]?).bind AuctionBatch.highestBid = none →
      getPriceInDUSD env (BigNum.num amount) symbol = .ok (some p) →
      V1.getStartingBid env vault batchIndex amount symbol =
        .ok (p.multipliedBy (BigNum.num (105/100))))
    ∧ (∀ (hb : HighestBid) (q : BigNum),
      (vault.batches[batchIndex]?).bind AuctionBatch.highestBid = some hb →
      getPriceInDUSD env (BigNum.num hb.amount.amt) symbol = .ok (some q) →
      V1.getStartingBid env vault batchIndex amount symbol =
        .ok (q.multipliedBy (BigNum.num (101/100)))) := by
  constructor
  · intro p hnone hp
    simp [V1.getStartingBid, hnone, hp]
  · intro hb q hsome hq
    simp [V1.getStartingBid, hsome, hq]

/-- Witness for C5: with DFI priced at 1 DUSD, a batch with no prior bid and
loan `100@DFI` gets starting bid `105`, and a batch with prior highest bid
`110@DFI` gets starting bid `111.1`. -/
theorem c5_starting_bid_formula_witness :
    V1.getStartingBid envW5 vaultW5nobid 0 100 ("DFI") = .ok (BigNum.num 105)
    ∧ V1.getStartingBid envW5 vaultW5bid 0 100 ("DFI") = .ok (BigNum.num (1111/10)) := by
  constructor
  · have h := (c5_starting_bid_formula envW5 vaultW5nobid 0 100 ("DFI")).1
      (BigNum.num 100) (by norm_num +decide [vaultW5nobid])
      (by norm_num +decide [envW5, getPriceInDUSD, BigNum.multipliedBy])
    rw [h]
    norm_num [BigNum.multipliedBy]
  · have h := (c5_starting_bid_formula envW5 vaultW5bid 0 100 ("DFI")).2
      ⟨⟨110, "DFI"⟩⟩ (BigNum.num 110) (by norm_num +decide [vaultW5bid])
      (by norm_num +decide [envW5, getPriceInDUSD, BigNum.multipliedBy])
    rw [h]
    norm_num [BigNum.multipliedBy]

/-- C6.  For every amount and non-DFI symbol whose direct `<symbol>-DUSD`
pool lookup fails with "Pool not found" while both fallback pools
`<symbol>-DFI` and `DUSD-DFI` exist, the price is
`amount × ratio(symbol→DFI) × ratio(DFI→DUSD)`
(`getPriceInDUSD`, `src/unnamed/part_000` lines 59-67). -/
theorem c6_two_hop_fallback (env : Env) (a : Rat) (symbol : String)
    (p1 p2 : PoolPair)
    (h0 : symbol ≠ "DFI")
    (h1 : env.getPoolPair (symbol ++ "-DUSD") = .error LookupError.poolNotFound)
    (h2 : env.getPoolPair (symbol ++ "-DFI") = .ok p1)
    (h3 : env.getPoolPair ("DUSD-DFI") = .ok p2) :
    getPriceInDUSD env (BigNum.num a) symbol =
      .ok (some (BigNum.num (a * p1.reserveBoverA * p2.reserveAoverB))) := by
  simp only [getPriceInDUSD, h0, if_false, h1, h2, h3, ite_false, BigNum.multipliedBy]
  ring_nf

/-- Witness for C6: hop ratios 3 (`XYZ-DFI`) and 2 (`DUSD-DFI`) price
`5@XYZ` at `5 × 3 × 2 = 30`. -/
theorem c6_two_hop_fallback_witness :
    getPriceInDUSD envW6 (BigNum.num 5) "XYZ" = .ok (some (BigNum.num 30)) := by
  have h := c6_two_hop_fallback envW6 5 ("XYZ") ⟨0, 3⟩ ⟨2, 0⟩ (by decide)
    (by norm_num +decide [envW6]) (by norm_num +decide [envW6])
    (by norm_num +decide [envW6])
  rw [h]
  norm_num

/-- C10.  For every vault and batch index out of range of the vault's batch
list (or whose batch has no `highestBid`), `getStartingBid` does not error
on the access (optional chaining): it takes the no-prior-bid path, returning
the loan price times 1.05, exactly as for a vault whose batch list is empty
(`getStartingBid`, `src/unnamed/part_000` lines 84-95). -/
theorem c10_out_of_range_no_bid (env : Env) (vault : Vault) (batchIndex : Nat)
    (amount : Rat) (symbol : String) (p : BigNum)
    (h : vault.batches.length ≤ batchIndex
      ∨ (vault.batches[batchIndex]?).bind AuctionBatch.highestBid = none)
    (hp : getPriceInDUSD env (BigNum.num amount) symbol = .ok (some p)) :
    V1.getStartingBid env vault batchIndex amount symbol =
      .ok (p.multipliedBy (BigNum.num (105/100)))
    ∧ V1.getStartingBid env vault batchIndex amount symbol =
      V1.getStartingBid env ⟨[], vault.liquidationHeight⟩ batchIndex amount symbol := by
  have hnone : (vault.batches[batchIndex]?).bind AuctionBatch.highestBid = none := by
    rcases h with h | h
    · rw [List.getElem?_eq_none h]
      rfl
    · exact h
  constructor
  · simp [V1.getStartingBid, hnone, hp]
  · simp [V1.getStartingBid, hnone, hp]

/-- Witness for C10: batch index 3 on an empty batch list, loan `100@DFI`
at DFI price 1, yields starting bid `105` without an error. -/
theorem c10_out_of_range_no_bid_witness :
    V1.getStartingBid envW5 ⟨[], 0⟩ 3 100 ("DFI") = .ok (BigNum.num 105) := by
  have h := (c10_out_of_range_no_bid envW5 ⟨[], 0⟩ 3 100 ("DFI") (BigNum.num 100)
    (Or.inl (by decide))
    (by norm_num +decide [envW5, getPriceInDUSD, BigNum.multipliedBy])).1
  rw [h]
  norm_num [BigNum.multipliedBy]

/-- Adding NaN on the right absorbs (bignumber.js `plus`). -/
theorem BigNum.plus_nan_right (x : BigNum) : x.plus BigNum.nan = BigNum.nan := by
  cases x <;> rfl

/-- Once the accumulator of the reward sum is NaN it stays NaN. -/
theorem foldl_plus_from_nan (l : List (Option BigNum)) :
    l.foldl (fun sum price => sum.plus (bigOfNullable price)) BigNum.nan = BigNum.nan := by
  induction l with
  | nil => rfl
  | cons p l ih => simpa [BigNum.plus] using ih

/-- A `null` price anywhere in the list makes the reward sum NaN. -/
theorem sumPrices_of_none_mem (prices : List (Option BigNum))
    (h : none ∈ prices) : sumPrices prices = BigNum.nan := by
  unfold sumPrices
  generalize BigNum.num 0 = acc
  induction prices generalizing acc with
  | nil => cases h
  | cons p l ih =>
      rcases List.mem_cons.mp h with h1 | h1
      · subst h1
        simp only [List.foldl_cons, bigOfNullable, BigNum.plus_nan_right]
        exact foldl_plus_from_nan l
      · exact ih h1 _

/-- If the price conversion of some collateral in the list fails (rejects,
or resolves to `null`), the `Promise.all` of `getRewardPrice` either
rejects or yields a list containing `null`. -/
theorem mapPrices_of_fail (env : Env) (l : List AssetString) (c : AssetString)
    (hc : c ∈ l)
    (hfail : ∀ p : BigNum, getPriceInDUSD env (BigNum.num c.amt) c.sym ≠ .ok (some p)) :
    (∃ e, mapPrices env l = .error e)
    ∨ (∃ ps, mapPrices env l = .ok ps ∧ none ∈ ps) := by
  induction l with
  | nil => cases hc
  | cons b rest ih =>
      rcases List.mem_cons.mp hc with h1 | h1
      · subst h1
        cases hp : getPriceInDUSD env (BigNum.num c.amt) c.sym with
        | error e => exact Or.inl ⟨e, by simp [mapPrices, hp]⟩
        | ok p =>
            cases p with
            | some q => exact absurd hp (hfail q)
            | none =>
                cases hmr : mapPrices env rest with
                | error e => exact Or.inl ⟨e, by simp [mapPrices, hp, hmr]⟩
                | ok ps =>
                    exact Or.inr ⟨none :: ps, by simp [mapPrices, hp, hmr],
                      List.mem_cons_self _ _⟩
      · cases hp : getPriceInDUSD env (BigNum.num b.amt) b.sym with
        | error e => exact Or.inl ⟨e, by simp [mapPrices, hp]⟩
        | ok p =>
            rcases ih h1 with ⟨e, he⟩ | ⟨ps, hps, hmem⟩
            · exact Or.inl ⟨e, by simp [mapPrices, hp, he]⟩
            · exact Or.inr ⟨p :: ps, by simp [mapPrices, hp, hps],
                List.mem_cons_of_mem _ hmem⟩

/-- C7.  For every collateral list in which at least one individual price
conversion fails (rejects or resolves to `null`), `getRewardPrice` never
returns a finite sum over the remaining collaterals: it either rejects
(failing the batch) or returns NaN — bignumber.js coerces the `null` price
to NaN, which absorbs the whole `reduce`
(`getRewardPrice`, `src/unnamed/part_000` lines 97-104). -/
theorem c7_reward_failure_propagates (env : Env) (l : List AssetString)
    (c : AssetString) (hc : c ∈ l)
    (hfail : ∀ p : BigNum, getPriceInDUSD env (BigNum.num c.amt) c.sym ≠ .ok (some p)) :
    (∃ e, getRewardPrice env l = .error e)
    ∨ getRewardPrice env l = .ok BigNum.nan := by
  rcases mapPrices_of_fail env l c hc hfail with ⟨e, he⟩ | ⟨ps, hps, hmem⟩
  · exact Or.inl ⟨e, by simp [getRewardPrice, he]⟩
  · exact Or.inr (by simp [getRewardPrice, hps, sumPrices_of_none_mem ps hmem])

/-- Witness for C7: collaterals `3@DFI` (healthy) and `5@XYZ` (whose pool
lookup fails unexpectedly) produce no finite partial sum. -/
theorem c7_reward_failure_propagates_witness :
    (∃ e, getRewardPrice envW7 collW7 = .error e)
    ∨ getRewardPrice envW7 collW7 = .ok BigNum.nan := by
  have hval : getPriceInDUSD envW7 (BigNum.num (5 : Rat)) "XYZ" = .ok none := by
    norm_num +decide [envW7, getPriceInDUSD]
  exact c7_reward_failure_propagates envW7 collW7 ⟨5, "XYZ"⟩
    (by norm_num [collW7])
    (fun p h => by rw [hval] at h; simp at h)

/-- If every collateral's price conversion succeeds with the paired value,
`Promise.all` resolves to exactly those values. -/
theorem mapPrices_of_ok (env : Env) (pairs : List (AssetString × Rat))
    (h : ∀ p ∈ pairs,
      getPriceInDUSD env (BigNum.num p.1.amt) p.1.sym = .ok (some (BigNum.num p.2))) :
    mapPrices env (pairs.map Prod.fst) = .ok (pairs.map fun p => some (BigNum.num p.2)) := by
  induction pairs with
  | nil => rfl
  | cons p rest ih =>
      have hp := h p (List.mem_cons_self _ _)
      have hrest := ih fun q hq => h q (List.mem_cons_of_mem _ hq)
      simp [mapPrices, hp, hrest]

/-- Folding `plus` over a list of finite prices sums them exactly. -/
theorem foldl_plus_nums (pairs : List (AssetString × Rat)) :
    ∀ acc : Rat,
      (pairs.map fun p => some (BigNum.num p.2)).foldl
        (fun sum price => sum.plus (bigOfNullable price)) (BigNum.num acc)
      = BigNum.num (acc + (pairs.map Prod.snd).sum) := by
  induction pairs with
  | nil => intro acc; simp
  | cons p rest ih =>
      intro acc
      have hstep : (BigNum.num acc).plus (bigOfNullable (some (BigNum.num p.2)))
          = BigNum.num (acc + p.2) := rfl
      simp only [List.map_cons, List.foldl_cons, hstep, ih, List.sum_cons]
      rw [add_assoc]

/-- C8.  For every collateral list whose individual price conversions all
succeed, `getRewardPrice` returns the sum of the DUSD values, with zero as
the identity element of the `reduce`; in particular the empty collateral
list yields zero (`getRewardPrice`, `src/unnamed/part_000` lines 97-104). -/
theorem c8_reward_is_sum (env : Env) (pairs : List (AssetString × Rat))
    (h : ∀ p ∈ pairs,
      getPriceInDUSD env (BigNum.num p.1.amt) p.1.sym = .ok (some (BigNum.num p.2))) :
    getRewardPrice env (pairs.map Prod.fst) =
      .ok (BigNum.num ((pairs.map Prod.snd).sum)) := by
  have hm := mapPrices_of_ok env pairs h
  have hf := foldl_plus_nums pairs 0
  rw [zero_add] at hf
  simp [getRewardPrice, hm, sumPrices, hf]

/-- Witness for C8: collaterals `3@DFI` and `4@TSLA`, worth 3 and 8 DUSD,
give reward `11`; the empty collateral list gives reward `0`. -/
theorem c8_reward_is_sum_witness :
    getRewardPrice envW8 (pairsW8.map Prod.fst) =
      .ok (BigNum.num ((pairsW8.map Prod.snd).sum))
    ∧ getRewardPrice envW8 (([] : List (AssetString × Rat)).map Prod.fst) =
      .ok (BigNum.num ((([] : List (AssetString × Rat)).map Prod.snd).sum)) := by
  constructor
  · exact c8_reward_is_sum envW8 pairsW8 (by
      intro p hp
      rcases List.mem_cons.mp hp with h1 | h1
      · subst h1
        norm_num +decide [envW8, pairsW8, getPriceInDUSD, BigNum.multipliedBy]
      · rcases List.mem_cons.mp h1 with h2 | h2
        · subst h2
          norm_num +decide [envW8, pairsW8, getPriceInDUSD, BigNum.multipliedBy]
        · cases h2)
  · exact c8_reward_is_sum envW8 [] (by intro p hp; cases hp)

/-- C9 (amended).  Both handlers compute
`margin = diff.dividedBy(startingBid).multipliedBy(100)` unconditionally:
for a nonzero finite starting bid this is `(reward − startingBid)/startingBid × 100`,
but for a zero starting bid the division is still performed and bignumber.js
returns `Infinity` whenever `reward > 0` — the computation is not skipped
and no error is raised (`src/unnamed/part_000` lines 120-121,
`src/.eslintrc.js` lines 146-147). -/
theorem c9_amended_margin_formula (reward bid : Rat) :
    (bid ≠ 0 →
      jsMargin ((BigNum.num reward).minus (BigNum.num bid)) (BigNum.num bid)
        = BigNum.num ((reward - bid) / bid * 100))
    ∧ (bid = 0 → 0 < reward →
      jsMargin ((BigNum.num reward).minus (BigNum.num bid)) (BigNum.num bid)
        = BigNum.posInf) := by
  constructor
  · intro h
    simp [jsMargin, BigNum.minus, BigNum.dividedBy, BigNum.multipliedBy, h]
  · intro h hr
    subst h
    simp [jsMargin, BigNum.minus, BigNum.dividedBy, BigNum.multipliedBy, hr]

/-- Witness for the amended C9: reward 120 over bid 100 gives margin 20%;
reward 10 over bid 0 gives margin `Infinity`. -/
theorem c9_amended_margin_formula_witness :
    jsMargin ((BigNum.num 120).minus (BigNum.num 100)) (BigNum.num 100)
      = BigNum.num ((120 - 100) / 100 * 100)
    ∧ jsMargin ((BigNum.num 10).minus (BigNum.num 0)) (BigNum.num 0)
      = BigNum.posInf := by
  exact ⟨(c9_amended_margin_formula 120 100).1 (by norm_num),
    (c9_amended_margin_formula 10 0).2 rfl (by norm_num)⟩

/-- Counterexample to C9 as stated: on a batch with loan `0@DFI` (starting
bid 0) and reward `10`, the variant-1 endpoint performs the division,
produces an `Infinity` margin, and still includes the batch in the 200
response — it is neither skipped nor an error. -/
theorem c9_counterexample_infinity_served :
    V1.handler envC9 1 (BigNum.num 0) = Response.ok [recC9]
    ∧ recC9.margin = BigNum.posInf := by
  constructor
  · norm_num +decide [V1.handler, getAvailableAuctions, envC9, V1.processAuctions,
      V1.getStartingBid, getPriceInDUSD, getRewardPrice, mapPrices, sumPrices,
      bigOfNullable, jsMargin, getMaxPrice, V1.renderAll, BigNum.plus, BigNum.minus,
      BigNum.multipliedBy, BigNum.dividedBy, BigNum.isGreaterThan,
      BigNum.isGreaterThanOrEqualTo, BigNum.isLessThan, recC9]
  · rfl

/-- C3 (amended).  For a batch whose starting bid and reward are computed
successfully, inclusion in the collected result list is: in variant 1, iff
`margin ≥ minMargin AND diff > 1 AND startingBid < 8000`
(`src/unnamed/part_000` line 125); in variant 2, iff `margin ≥ minMargin`
alone (`src/.eslintrc.js` line 150). -/
theorem c3_amended_filter (env : Env) (m : BigNum) (auction : Auction)
    (vault : Vault) (sb1 reward sb2 : BigNum)
    (hv : env.getVault auction.vaultId = .ok vault)
    (hs1 : V1.getStartingBid env vault auction.index auction.loan.amt auction.loan.sym
      = .ok sb1)
    (hr : getRewardPrice env auction.collaterals = .ok reward)
    (hs2 : V2.getStartingBid env auction = .ok sb2) :
    ((∃ r, V1.processAuctions env m [auction] = .ok [r]) ↔
      ((jsMargin (reward.minus sb1) sb1).isGreaterThanOrEqualTo m
        && (reward.minus sb1).isGreaterThan (BigNum.num 1)
        && sb1.isLessThan (BigNum.num 8000)) = true)
    ∧ ((∃ r, V2.processAuctions env m [auction] = .ok [r]) ↔
      (jsMargin (reward.minus sb2) sb2).isGreaterThanOrEqualTo m = true) := by
  constructor
  · by_cases hcond : ((jsMargin (reward.minus sb1) sb1).isGreaterThanOrEqualTo m
        && (reward.minus sb1).isGreaterThan (BigNum.num 1)
        && sb1.isLessThan (BigNum.num 8000)) = true
    · simp [V1.processAuctions, hv, hs1, hr, hcond]
    · simp [V1.processAuctions, hv, hs1, hr, hcond]
  · by_cases hcond : (jsMargin (reward.minus sb2) sb2).isGreaterThanOrEqualTo m = true
    · simp [V2.processAuctions, hs2, hr, hcond]
    · simp [V2.processAuctions, hs2, hr, hcond]

/-- Witness for the amended C3: on the concrete batch of `envC3` (starting
bid 105, reward 105.5) with threshold 0, variant 1 excludes it (diff ≤ 1)
and variant 2 includes it. -/
theorem c3_amended_filter_witness :
    ((∃ r, V1.processAuctions envC3 (BigNum.num 0) [auctionC3] = .ok [r]) ↔
      ((jsMargin ((BigNum.num (211/2)).minus (BigNum.num 105)) (BigNum.num 105)).isGreaterThanOrEqualTo
          (BigNum.num 0)
        && ((BigNum.num (211/2)).minus (BigNum.num 105)).isGreaterThan (BigNum.num 1)
        && (BigNum.num 105).isLessThan (BigNum.num 8000)) = true)
    ∧ ((∃ r, V2.processAuctions envC3 (BigNum.num 0) [auctionC3] = .ok [r]) ↔
      (jsMargin ((BigNum.num (211/2)).minus (BigNum.num 105)) (BigNum.num 105)).isGreaterThanOrEqualTo
          (BigNum.num 0) = true) := by
  exact c3_amended_filter envC3 (BigNum.num 0) auctionC3 vaultC3
    (BigNum.num 105) (BigNum.num (211/2)) (BigNum.num 105)
    (by norm_num +decide [envC3, auctionC3, vaultC3])
    (by norm_num +decide [envC3, auctionC3, vaultC3, V1.getStartingBid, getPriceInDUSD,
      BigNum.multipliedBy])
    (by norm_num +decide [envC3, auctionC3, getRewardPrice, mapPrices, sumPrices,
      bigOfNullable, getPriceInDUSD, BigNum.plus, BigNum.multipliedBy])
    (by norm_num +decide [envC3, auctionC3, V2.getStartingBid, V2.getHighestBidSoFar,
      getPriceInDUSD, BigNum.multipliedBy])

/-- Counterexample to C3 as stated: in variant 1 a batch with
`margin = 10/21 % ≥ 0 = minMargin` whose `diff = 0.5` is NOT included —
inclusion is not equivalent to `margin ≥ minMargin`. -/
theorem c3_counterexample_margin_not_sufficient :
    V1.getStartingBid envC3 vaultC3 0 100 ("DFI") = .ok (BigNum.num 105)
    ∧ getRewardPrice envC3 [⟨211/2, "DFI"⟩] = .ok (BigNum.num (211/2))
    ∧ (jsMargin ((BigNum.num (211/2)).minus (BigNum.num 105)) (BigNum.num 105)).isGreaterThanOrEqualTo
        (BigNum.num 0) = true
    ∧ V1.processAuctions envC3 (BigNum.num 0) [auctionC3] = .ok [] := by
  refine ⟨?_, ?_, ?_, ?_⟩
  · norm_num +decide [envC3, vaultC3, V1.getStartingBid, getPriceInDUSD,
      BigNum.multipliedBy]
  · norm_num +decide [envC3, getRewardPrice, mapPrices, sumPrices, bigOfNullable,
      getPriceInDUSD, BigNum.plus, BigNum.multipliedBy]
  · norm_num [jsMargin, BigNum.minus, BigNum.dividedBy, BigNum.multipliedBy,
      BigNum.isGreaterThanOrEqualTo]
  · norm_num +decide [envC3, auctionC3, V1.processAuctions, V1.getStartingBid,
      getPriceInDUSD, getRewardPrice, mapPrices, sumPrices, bigOfNullable, jsMargin,
      getMaxPrice, BigNum.plus, BigNum.minus, BigNum.multipliedBy, BigNum.dividedBy,
      BigNum.isGreaterThan, BigNum.isGreaterThanOrEqualTo, BigNum.isLessThan]

/-- C1.  Demonstration of the divergence: in `envC1` the first batch's
price conversion fails with an unexpected (non-"Pool not found") error, so
`getPriceInDUSD` returns `null` and `getStartingBid`'s
`loanNum.multipliedBy('1.05')` throws a `TypeError`; the route handler's
catch-all turns the whole request into a 500, so the healthy second batch
(which on its own yields the record `recY`) never appears — the failure
escalates to a request-level error instead of skipping one batch. -/
theorem c1_price_failure_escalates :
    V1.handler envC1 2 (BigNum.num 0) = Response.serverError500
    ∧ V1.processAuctions envC1 (BigNum.num 0) [auctionY] = .ok [recY] := by
  constructor
  · norm_num +decide [V1.handler, getAvailableAuctions, envC1, V1.processAuctions,
      V1.getStartingBid, getPriceInDUSD, getRewardPrice, mapPrices, sumPrices,
      bigOfNullable, jsMargin, getMaxPrice, V1.renderAll, BigNum.plus, BigNum.minus,
      BigNum.multipliedBy, BigNum.dividedBy, BigNum.isGreaterThan,
      BigNum.isGreaterThanOrEqualTo, BigNum.isLessThan]
  · norm_num +decide [envC1, V1.processAuctions, V1.getStartingBid, auctionY, recY,
      getPriceInDUSD, getRewardPrice, mapPrices, sumPrices, bigOfNullable, jsMargin,
      getMaxPrice, BigNum.plus, BigNum.minus, BigNum.multipliedBy, BigNum.dividedBy,
      BigNum.isGreaterThan, BigNum.isGreaterThanOrEqualTo, BigNum.isLessThan]

/-- In variant 1, if any auction in the list has a failing vault fetch, the
sequential processing loop throws (either at that batch or earlier). -/
theorem processAuctions_vault_error (env : Env) (m : BigNum) :
    ∀ (auctions : List Auction) (a : Auction) (e : LookupError),
      a ∈ auctions → env.getVault a.vaultId = .error e →
      ∃ e', V1.processAuctions env m auctions = .error e' := by
  intro auctions
  induction auctions with
  | nil => intro a e ha _; cases ha
  | cons b rest ih =>
      intro a e ha hv
      rcases List.mem_cons.mp ha with h1 | h1
      · subst h1
        exact ⟨JsError.lookup e, by simp [V1.processAuctions, hv]⟩
      · cases hb : env.getVault b.vaultId with
        | error e2 => exact ⟨JsError.lookup e2, by simp [V1.processAuctions, hb]⟩
        | ok vault =>
            cases hsb : V1.getStartingBid env vault b.index b.loan.amt b.loan.sym with
            | error e2 => exact ⟨e2, by simp [V1.processAuctions, hb, hsb]⟩
            | ok sb =>
                cases hrw : getRewardPrice env b.collaterals with
                | error e2 => exact ⟨e2, by simp [V1.processAuctions, hb, hsb, hrw]⟩
                | ok reward =>
                    obtain ⟨e', he'⟩ := ih a e h1 hv
                    exact ⟨e', by simp [V1.processAuctions, hb, hsb, hrw, he']⟩

/-- C4 (amended).  A failing auction-list fetch fails the whole request
with a generic 500 in both variants, and in variant 1 a failing vault fetch
for any listed batch likewise fails the whole request (no partial list is
returned); but in variant 2 the vault fetch happens inside
`getHighestBidSoFar`, which catches the error and returns `null`, so the
batch is processed as if it had no prior bid and the request continues
(`src/unnamed/part_000` lines 115, 161-165; `src/.eslintrc.js`
lines 95-103). -/
theorem c4_amended_upstream_failure :
    (∀ (env : Env) (limit : Nat) (m : BigNum) (e : LookupError),
      env.listAuctions limit = .error e →
      V1.handler env limit m = Response.serverError500)
    ∧ (∀ (env : Env) (limit : Nat) (m : BigNum) (e : LookupError),
      env.listAuctions limit = .error e →
      V2.handler env limit m = Response.serverError500)
    ∧ (∀ (env : Env) (limit : Nat) (m : BigNum) (auctions : List Auction)
        (a : Auction) (e : LookupError),
      getAvailableAuctions env limit = .ok auctions → a ∈ auctions →
      env.getVault a.vaultId = .error e →
      V1.handler env limit m = Response.serverError500)
    ∧ (∀ (env : Env) (vaultId : String) (batchIndex : Nat) (e : LookupError),
      env.getVault vaultId = .error e →
      V2.getHighestBidSoFar env vaultId batchIndex = none) := by
  refine ⟨?_, ?_, ?_, ?_⟩
  · intro env limit m e h
    simp [V1.handler, getAvailableAuctions, h]
  · intro env limit m e h
    simp [V2.handler, getAvailableAuctions, h]
  · intro env limit m auctions a e hl ha hv
    obtain ⟨e', he'⟩ := processAuctions_vault_error env m auctions a e ha hv
    simp [V1.handler, hl, he']
  · intro env vaultId batchIndex e h
    simp [V2.getHighestBidSoFar, h]

/-- Witness for the amended C4: a failing auction-list fetch makes variant 1
answer 500, and a failing vault fetch makes variant 2's
`getHighestBidSoFar` return `null` instead of failing. -/
theorem c4_amended_upstream_failure_witness :
    V1.handler envC4b 1 (BigNum.num 0) = Response.serverError500
    ∧ V2.getHighestBidSoFar envC4 ("v1") 0 = none := by
  exact ⟨c4_amended_upstream_failure.1 envC4b 1 (BigNum.num 0) LookupError.other rfl,
    c4_amended_upstream_failure.2.2.2 envC4 ("v1") 0 LookupError.other rfl⟩

/-- Counterexample to C4 as stated: in `envC4` EVERY vault fetch fails, yet
the variant-2 endpoint does not fail the request — it returns a normal
response containing the batch's valuation record. -/
theorem c4_counterexample_vault_failure_not_request_failure :
    envC4.getVault ("v1") = .error LookupError.other
    ∧ V2.handler envC4 1 (BigNum.num 0) = Response.ok [recC4] := by
  constructor
  · rfl
  · norm_num +decide [V2.handler, getAvailableAuctions, envC4, V2.processAuctions,
      V2.getStartingBid, V2.getHighestBidSoFar, getPriceInDUSD, getRewardPrice,
      mapPrices, sumPrices, bigOfNullable, jsMargin, jsStableSort, jsOrderedInsert,
      jsSortLe, V2.sortyByMargin, recC4, BigNum.plus, BigNum.minus,
      BigNum.multipliedBy, BigNum.dividedBy, BigNum.isGreaterThan,
      BigNum.isGreaterThanOrEqualTo, BigNum.isLessThan]

/-- Inserting into a list adds exactly the inserted element. -/
theorem mem_jsOrderedInsert {α : Type} (le : α → α → Bool) (a x : α) (l : List α) :
    x ∈ jsOrderedInsert le a l ↔ x = a ∨ x ∈ l := by
  induction l with
  | nil => simp [jsOrderedInsert]
  | cons b l ih =>
      by_cases h : le a b = true
      · simp [jsOrderedInsert, h, List.mem_cons]
      · simp only [jsOrderedInsert, if_neg h, List.mem_cons, ih]
        tauto

/-- Sorting does not change the elements of the list. -/
theorem mem_jsStableSort {α : Type} (le : α → α → Bool) (x : α) (l : List α) :
    x ∈ jsStableSort le l ↔ x ∈ l := by
  induction l with
  | nil => simp [jsStableSort]
  | cons a l ih => simp [jsStableSort, mem_jsOrderedInsert, ih, List.mem_cons]

/-- Ordered insertion preserves sortedness when the comparator order is
total and transitive on the elements involved. -/
theorem pairwise_jsOrderedInsert {α : Type} {le : α → α → Bool} {P : α → Prop}
    (htot : ∀ x y, P x → P y → le x y = true ∨ le y x = true)
    (htrans : ∀ x y z, P x → P y → P z →
      le x y = true → le y z = true → le x z = true)
    {a : α} {l : List α} (ha : P a) (hl : ∀ x ∈ l, P x)
    (hs : l.Pairwise (fun x y => le x y = true)) :
    (jsOrderedInsert le a l).Pairwise (fun x y => le x y = true) := by
  induction l with
  | nil => simp [jsOrderedInsert]
  | cons b l ih =>
      rw [List.pairwise_cons] at hs
      by_cases h : le a b = true
      · simp only [jsOrderedInsert, if_pos h]
        refine List.Pairwise.cons ?_ (List.Pairwise.cons hs.1 hs.2)
        intro y hy
        rcases List.mem_cons.mp hy with h1 | h1
        · subst h1; exact h
        · exact htrans a b y ha (hl b (List.mem_cons_self _ _))
            (hl y (List.mem_cons_of_mem _ h1)) h (hs.1 y h1)
      · simp only [jsOrderedInsert, if_neg h]
        refine List.Pairwise.cons ?_
          (ih (fun x hx => hl x (List.mem_cons_of_mem _ hx)) hs.2)
        intro y hy
        rcases (mem_jsOrderedInsert le a y l).mp hy with h1 | h1
        · rw [h1]
          rcases htot a b ha (hl b (List.mem_cons_self _ _)) with h2 | h2
          · exact absurd h2 h
          · exact h2
        · exact hs.1 y h1

/-- The stable sort produces a list pairwise ordered by the comparator,
provided the comparator order is total and transitive on the list's
elements. -/
theorem pairwise_jsStableSort {α : Type} {le : α → α → Bool} {P : α → Prop}
    (htot : ∀ x y, P x → P y → le x y = true ∨ le y x = true)
    (htrans : ∀ x y z, P x → P y → P z →
      le x y = true → le y z = true → le x z = true) :
    ∀ l : List α, (∀ x ∈ l, P x) →
      (jsStableSort le l).Pairwise (fun x y => le x y = true) := by
  intro l
  induction l with
  | nil => intro _; simp [jsStableSort]
  | cons a l ih =>
      intro hl
      simp only [jsStableSort]
      exact pairwise_jsOrderedInsert htot htrans (hl a (List.mem_cons_self _ _))
        (fun x hx => hl x (List.mem_cons_of_mem _ ((mem_jsStableSort le x l).mp hx)))
        (ih fun x hx => hl x (List.mem_cons_of_mem _ hx))

/-- On records with finite margins, the sort order induced by
`sortyByMargin` is exactly "margin of the first is at least the margin of
the second" (descending). -/
theorem jsSortLe_sortyByMargin_num {x y : V2.ValRecord} {qx qy : Rat}
    (hx : x.margin = BigNum.num qx) (hy : y.margin = BigNum.num qy) :
    jsSortLe V2.sortyByMargin x y = true ↔ qy ≤ qx := by
  simp only [jsSortLe, V2.sortyByMargin, hx, hy, BigNum.isGreaterThan]
  by_cases h1 : qy < qx
  · simp [h1, le_of_lt h1]
  · by_cases h2 : qx < qy
    · simp [h1, h2, not_le.mpr h2]
    · simp [h1, h2, le_of_not_lt h2]

/-- bignumber.js `isGreaterThan` is asymmetric. -/
theorem isGreaterThan_asymm (a b : BigNum) (h : BigNum.isGreaterThan a b = true) :
    BigNum.isGreaterThan b a = false := by
  cases a <;> cases b <;> simp_all [BigNum.isGreaterThan, not_lt] <;> linarith

/-- The negation of bignumber.js `isGreaterThan` is transitive as long as
the middle value is not NaN: it is the non-strict total order on the
non-NaN values. -/
theorem isGreaterThan_false_trans (a b c : BigNum) (hb : b ≠ BigNum.nan)
    (h1 : BigNum.isGreaterThan b a = false) (h2 : BigNum.isGreaterThan c b = false) :
    BigNum.isGreaterThan c a = false := by
  cases a <;> cases b <;> cases c <;> simp_all [BigNum.isGreaterThan, not_lt] <;> linarith

/-- A NaN margin fails `isGreaterThanOrEqualTo` against every threshold, so
a NaN-margin record can never pass the margin filter. -/
theorem isGreaterThanOrEqualTo_nan_false (m : BigNum) :
    BigNum.isGreaterThanOrEqualTo BigNum.nan m = false := by
  cases m <;> rfl

/-- The sort order induced by `sortyByMargin` is exactly "the second
record's margin is not greater than the first's". -/
theorem jsSortLe_iff_not_gt (x y : V2.ValRecord) :
    jsSortLe V2.sortyByMargin x y = true
      ↔ BigNum.isGreaterThan y.margin x.margin = false := by
  simp only [jsSortLe, V2.sortyByMargin]
  rcases Bool.eq_false_or_eq_true (BigNum.isGreaterThan x.margin y.margin) with h1 | h1
  · simp [h1, isGreaterThan_asymm _ _ h1]
  · rcases Bool.eq_false_or_eq_true (BigNum.isGreaterThan y.margin x.margin) with h2 | h2
    · simp [h1, h2]
    · simp [h1, h2]

/-- The sort order induced by `sortyByMargin` is total on all records. -/
theorem jsSortLe_total (x y : V2.ValRecord) :
    jsSortLe V2.sortyByMargin x y = true ∨ jsSortLe V2.sortyByMargin y x = true := by
  simp only [jsSortLe, V2.sortyByMargin]
  rcases Bool.eq_false_or_eq_true (BigNum.isGreaterThan x.margin y.margin) with h1 | h1
  · left; simp [h1]
  · rcases Bool.eq_false_or_eq_true (BigNum.isGreaterThan y.margin x.margin) with h2 | h2
    · right; simp [h1, h2]
    · left; simp [h1, h2]

/-- Every record collected by the variant-2 loop passed the margin filter,
and NaN fails every `isGreaterThanOrEqualTo`, so no collected record has a
NaN margin. -/
theorem processAuctions_margin_not_nan (env : Env) (m : BigNum) :
    ∀ (auctions : List Auction) (out : List V2.ValRecord),
      V2.processAuctions env m auctions = .ok out →
      ∀ r ∈ out, r.margin ≠ BigNum.nan := by
  intro auctions
  induction auctions with
  | nil =>
      intro out h r hr
      simp only [V2.processAuctions, Except.ok.injEq] at h
      subst h
      cases hr
  | cons a rest ih =>
      intro out h r hr
      simp only [V2.processAuctions] at h
      cases hsb : V2.getStartingBid env a with
      | error e => simp [hsb] at h
      | ok startingBid =>
          cases hrw : getRewardPrice env a.collaterals with
          | error e => simp [hsb, hrw] at h
          | ok reward =>
              cases hrest : V2.processAuctions env m rest with
              | error e => simp [hsb, hrw, hrest] at h
              | ok rest' =>
                  simp only [hsb, hrw, hrest] at h
                  by_cases hcond :
                      (jsMargin (reward.minus startingBid) startingBid).isGreaterThanOrEqualTo m
                        = true
                  · rw [if_pos hcond, Except.ok.injEq] at h
                    subst h
                    rcases List.mem_cons.mp hr with h1 | h1
                    · rw [h1]
                      show jsMargin (reward.minus startingBid) startingBid ≠ BigNum.nan
                      intro heq
                      rw [heq, isGreaterThanOrEqualTo_nan_false] at hcond
                      simp at hcond
                    · exact ih rest' hrest r h1
                  · rw [if_neg hcond, Except.ok.injEq] at h
                    subst h
                    exact ih rest' hrest r hr

/-- C2 (amended).  The variant-2 endpoint sorts DESCENDING by margin with
`sortyByMargin` and then calls `result.reverse()`, so the response list is
in ASCENDING margin order: whenever record `x` precedes record `y` in the
output and both margins are finite, `margin x ≤ margin y`.  Nothing is
assumed about the remaining records: a served record's margin is never NaN
(NaN fails the margin filter), and on the remaining values (rationals and
the infinities) the comparator order is total and transitive
(`src/.eslintrc.js` lines 128-132, 150, 154-155). -/
theorem c2_amended_ascending (env : Env) (limit : Nat) (m : BigNum)
    (out : List V2.ValRecord)
    (hout : V2.handler env limit m = Response.ok out) :
    out.Pairwise (fun x y => ∀ qx qy,
      x.margin = BigNum.num qx → y.margin = BigNum.num qy → qx ≤ qy) := by
  have htot : ∀ x y : V2.ValRecord,
      x.margin ≠ BigNum.nan → y.margin ≠ BigNum.nan →
      jsSortLe V2.sortyByMargin x y = true ∨ jsSortLe V2.sortyByMargin y x = true :=
    fun x y _ _ => jsSortLe_total x y
  have htrans : ∀ x y z : V2.ValRecord,
      x.margin ≠ BigNum.nan → y.margin ≠ BigNum.nan → z.margin ≠ BigNum.nan →
      jsSortLe V2.sortyByMargin x y = true → jsSortLe V2.sortyByMargin y z = true →
      jsSortLe V2.sortyByMargin x z = true := by
    intro x y z _ hy _ h1 h2
    rw [jsSortLe_iff_not_gt] at h1 h2 ⊢
    exact isGreaterThan_false_trans x.margin y.margin z.margin hy h1 h2
  unfold V2.handler at hout
  cases hA : getAvailableAuctions env limit with
  | error e => simp [hA] at hout
  | ok auctions =>
      cases hP : V2.processAuctions env m auctions with
      | error e => simp [hA, hP] at hout
      | ok records =>
          simp only [hA, hP, Response.ok.injEq] at hout
          subst hout
          have hrecP : ∀ x ∈ records, x.margin ≠ BigNum.nan :=
            processAuctions_margin_not_nan env m auctions records hP
          rw [List.pairwise_reverse]
          have hsorted := pairwise_jsStableSort htot htrans records hrecP
          exact hsorted.imp
            (fun {a b} h q1 q2 hb ha => (jsSortLe_sortyByMargin_num ha hb).mp h)

/-- Witness for the amended C2: on `envC2` the endpoint returns the three
records with margins 5%, 12%, 20% in ascending margin order. -/
theorem c2_amended_ascending_witness :
    V2.handler envC2 3 (BigNum.num 0) = Response.ok outC2
    ∧ outC2.Pairwise (fun x y => ∀ qx qy,
        x.margin = BigNum.num qx → y.margin = BigNum.num qy → qx ≤ qy) := by
  have h : V2.handler envC2 3 (BigNum.num 0) = Response.ok outC2 := by
    norm_num +decide [V2.handler, getAvailableAuctions, envC2, V2.processAuctions,
      V2.getStartingBid, V2.getHighestBidSoFar, getPriceInDUSD, getRewardPrice,
      mapPrices, sumPrices, bigOfNullable, jsMargin, jsStableSort, jsOrderedInsert,
      jsSortLe, V2.sortyByMargin, outC2, recC2m5, recC2m12, recC2m20, BigNum.plus,
      BigNum.minus, BigNum.multipliedBy, BigNum.dividedBy, BigNum.isGreaterThan,
      BigNum.isGreaterThanOrEqualTo, BigNum.isLessThan]
  exact ⟨h, c2_amended_ascending envC2 3 (BigNum.num 0) outC2 h⟩

/-- Counterexample to C2 as stated: on `envC2` (input margins 5%, 20%, 12%)
the variant-2 endpoint returns margins in order `[5, 12, 20]` — ascending,
not the claimed descending `[20, 12, 5]`: the first record's margin is NOT
≥ the second's. -/
theorem c2_counterexample_ascending_output :
    V2.handler envC2 3 (BigNum.num 0) = Response.ok outC2
    ∧ outC2.map V2.ValRecord.margin = [BigNum.num 5, BigNum.num 12, BigNum.num 20]
    ∧ (BigNum.num 5).isGreaterThanOrEqualTo (BigNum.num 12) = false := by
  refine ⟨?_, ?_, ?_⟩
  · norm_num +decide [V2.handler, getAvailableAuctions, envC2, V2.processAuctions,
      V2.getStartingBid, V2.getHighestBidSoFar, getPriceInDUSD, getRewardPrice,
      mapPrices, sumPrices, bigOfNullable, jsMargin, jsStableSort, jsOrderedInsert,
      jsSortLe, V2.sortyByMargin, outC2, recC2m5, recC2m12, recC2m20, BigNum.plus,
      BigNum.minus, BigNum.multipliedBy, BigNum.dividedBy, BigNum.isGreaterThan,
      BigNum.isGreaterThanOrEqualTo, BigNum.isLessThan]
  · norm_num [outC2, recC2m5, recC2m12, recC2m20]
  · norm_num [BigNum.isGreaterThanOrEqualTo]
